import Mathlib

/-!
Verification development for the JTAG UART handler of the device_runner_cli
tools (files `jtag_uart_handler.c` — the PS variant — and
`jtag_uart_handler_pl.c` — the PL variant; the two files are identical in
their protocol logic and differ only in the text of the `help` response and
in the extra `output_data` / `device_dna` menu entries of the PS variant).

The protocol engine is embedded shallowly:
 - commands, arguments and responses are `List Char`;
 - the mutable globals (`running`, `param1..3`, `app_status`) form
   `HandlerState`; the `uint32_t` parameters are `Nat` values kept below
   `2 ^ 32` (all writes reduce modulo `2 ^ 32`, as the 32-bit C objects do);
 - every handler is a function `HandlerState → HandlerState × List (List Char)`
   whose second component lists the `send_response` calls the C handler makes,
   in order (diagnostic `xil_printf` logging is not a response and is elided);
 - `sscanf(command, "%s 0x%X", ...)` is modelled by `sscanf_param` below,
   following the C conversion rules: `%s` skips whitespace and takes a maximal
   non-whitespace token, a blank in the format skips whitespace, literal `0x`
   must match exactly, and `%X` skips whitespace, accepts an optional sign and
   an optional `0x`/`0X` marker, and accumulates hex digits in 32-bit unsigned
   arithmetic (wrapping), failing when no digit is present.
-/

/-- C `isspace` on the ASCII characters relevant to `sscanf` whitespace
skipping: space (32) and the control characters 9–13. -/
def c_isspace (c : Char) : Bool :=
  decide (c.toNat = 32 ∨ (9 ≤ c.toNat ∧ c.toNat ≤ 13))

/-- C `isxdigit`: `0`–`9`, `a`–`f`, `A`–`F`. -/
def c_isxdigit (c : Char) : Bool :=
  decide ((48 ≤ c.toNat ∧ c.toNat ≤ 57) ∨ (97 ≤ c.toNat ∧ c.toNat ≤ 102)
    ∨ (65 ≤ c.toNat ∧ c.toNat ≤ 70))

/-- Numeric value of a hex digit, as the C conversion computes it. -/
def hex_val (c : Char) : Nat :=
  if c.toNat ≤ 57 then c.toNat - 48
  else if c.toNat ≤ 70 then c.toNat - 55
  else c.toNat - 87

/-- The hex-digit accumulation loop of the `%X` conversion: consume hex
digits, accumulating the value in 32-bit unsigned (wrapping) arithmetic, and
stop at the first non-digit. Returns the value and the unconsumed input. -/
def scan_hex_digits : List Char → Nat → Nat × List Char
  | [], v => (v, [])
  | c :: r, v =>
    if c_isxdigit c then scan_hex_digits r ((v * 16 + hex_val c) % 2 ^ 32)
    else (v, c :: r)

/-- The optional `0x` / `0X` marker accepted by the `%X` conversion itself:
it is consumed only when a hex digit follows it. -/
def strip_hex_marker (s : List Char) : List Char :=
  match s with
  | c0 :: c1 :: r =>
    if c0 = '0' ∧ (c1 = 'x' ∨ c1 = 'X')
        ∧ (match r with | c :: _ => c_isxdigit c | [] => false) = true then r
    else s
  | _ => s

/-- Unsigned hex number for `%X`, after whitespace and sign handling:
optional `0x`/`0X` marker, then at least one hex digit. -/
def scan_unsigned_hex (s : List Char) : Option (Nat × List Char) :=
  match strip_hex_marker s with
  | [] => none
  | c :: r => if c_isxdigit c then some (scan_hex_digits (c :: r) 0) else none

/-- The `%X` conversion: skip whitespace, optional sign (a leading minus
negates in 32-bit unsigned arithmetic), then an unsigned hex number. -/
def scan_pct_X (input : List Char) : Option (Nat × List Char) :=
  match input.dropWhile (fun c => c_isspace c) with
  | [] => none
  | c :: r =>
    if c = '-' then
      (scan_unsigned_hex r).map (fun p => ((2 ^ 32 - p.1) % 2 ^ 32, p.2))
    else if c = '+' then scan_unsigned_hex r
    else scan_unsigned_hex (c :: r)

/-- `sscanf(command, "%s 0x%X", param_name, &param_value)` of
`handle_set_param_command`: returns the scanned name, the scanned value and
the unconsumed input when both conversions succeed (`sscanf` result 2),
`none` otherwise. -/
def sscanf_param (input : List Char) : Option (List Char × Nat × List Char) :=
  let s0 := input.dropWhile (fun c => c_isspace c)
  if s0.isEmpty then none
  else
    let name := s0.takeWhile (fun c => !c_isspace c)
    let r1 := (s0.drop name.length).dropWhile (fun c => c_isspace c)
    match r1 with
    | '0' :: 'x' :: r2 => (scan_pct_X r2).map (fun p => (name, p.1, p.2))
    | _ => none

/-- The whitespace-delimited token that the `%s` conversion writes into the
16-byte `param_name` buffer before the rest of the format is matched: the
leading token of the argument after whitespace skipping. Arguments whose
token is 16 bytes or longer overflow the buffer in the C code (see C9), so
statements about `set_param` classification are made only for arguments
whose token is at most 15 bytes — the domain on which the C is defined. -/
def scan_name_token (arg : List Char) : List Char :=
  (arg.dropWhile (fun c => c_isspace c)).takeWhile (fun c => !c_isspace c)

/-- One output digit of C `%08X` formatting (uppercase). -/
def hex_digit_char (n : Nat) : Char :=
  Char.ofNat (if n < 10 then 48 + n else 55 + n)

/-- C `%08X`: eight uppercase hex digits, zero padded. -/
def format_hex8 (v : Nat) : List Char :=
  (List.range 8).map (fun i => hex_digit_char (v / 16 ^ (7 - i) % 16))

/-- Mathematical value of a list of hex digits (most significant first);
spec-side companion of `scan_hex_digits`, without the 32-bit wrap. -/
def hex_digits_val (hs : List Char) : Nat :=
  hs.foldl (fun v c => v * 16 + hex_val c) 0

/-- The mutable globals of `jtag_uart_handler.c`: `running` (int, 1 at
start), the three `uint32_t` parameters and the `app_status[64]` string. -/
structure HandlerState where
  running : Nat
  param1 : Nat
  param2 : Nat
  param3 : Nat
  app_status : List Char
deriving DecidableEq, Repr

/-- The initial values of the globals at program start. -/
def initial_state : HandlerState :=
  { running := 1
    param1 := 0x00000001
    param2 := 0x43C00000
    param3 := 0x00001000
    app_status := "IDLE".data }

/-- `handle_init_command`: reset the parameters to their defaults, set the
status, answer `INIT_OK`. -/
def handle_init_command (s : HandlerState) : HandlerState × List (List Char) :=
  ({ s with
      param1 := 0x00000001
      param2 := 0x43C00000
      param3 := 0x00001000
      app_status := "INITIALIZED".data }, ["INIT_OK".data])

/-- `handle_run_app_command`: the status passes through `RUNNING` (assigned
mid-handler, before the simulated delay) and ends at `COMPLETED`; the single
response is `RUN_OK`. The busy-wait delay has no observable effect here. -/
def handle_run_app_command (s : HandlerState) : HandlerState × List (List Char) :=
  let s1 := { s with app_status := "RUNNING".data }
  ({ s1 with app_status := "COMPLETED".data }, ["RUN_OK".data])

/-- `handle_set_param_command`: a `NULL` argument (no space after the command
name) is `Missing parameter arguments`; otherwise the argument is scanned
with `"%s 0x%X"`; on scan success the named field is assigned (unknown names
answer `Unknown parameter name`); scan failure answers
`Invalid parameter format`. -/
def handle_set_param_command (s : HandlerState) :
    Option (List Char) → HandlerState × List (List Char)
  | none => (s, ["ERROR: Missing parameter arguments".data])
  | some arg =>
    match sscanf_param arg with
    | some (name, v, _) =>
      if name = "param1".data then ({ s with param1 := v }, ["PARAM_SET_OK".data])
      else if name = "param2".data then ({ s with param2 := v }, ["PARAM_SET_OK".data])
      else if name = "param3".data then ({ s with param3 := v }, ["PARAM_SET_OK".data])
      else (s, ["ERROR: Unknown parameter name".data])
    | none => (s, ["ERROR: Invalid parameter format".data])

/-- The `snprintf` format of `handle_get_status_command` (before the 512-byte
response buffer is applied). -/
def status_line (s : HandlerState) : List Char :=
  "STATUS: ".data ++ s.app_status
    ++ ", P1: 0x".data ++ format_hex8 s.param1
    ++ ", P2: 0x".data ++ format_hex8 s.param2
    ++ ", P3: 0x".data ++ format_hex8 s.param3

/-- `handle_get_status_command`: read-only; formats the status and the three
parameters into the 512-byte response buffer (`snprintf` keeps at most 511
characters) and sends it. -/
def handle_get_status_command (s : HandlerState) : HandlerState × List (List Char) :=
  (s, [(status_line s).take 511])

/-- `handle_capture_ram_command`: simulated capture; the single response is
`RAM_CAPTURE_OK` and the state is untouched. -/
def handle_capture_ram_command (s : HandlerState) : HandlerState × List (List Char) :=
  (s, ["RAM_CAPTURE_OK".data])

/-- `handle_exit_command`: set the status to `EXITING`, answer `EXIT_OK`,
clear the `running` flag that the main loop tests. -/
def handle_exit_command (s : HandlerState) : HandlerState × List (List Char) :=
  ({ s with app_status := "EXITING".data, running := 0 }, ["EXIT_OK".data])

/-- The `help` response of the PS variant (`jtag_uart_handler.c`). -/
def help_response_ps : List Char :=
  "HELP: Available commands: init, run_app, set_param, get_status, capture_ram, output_data, device_dna, exit, help".data

/-- The `help` response of the PL variant (`jtag_uart_handler_pl.c`). -/
def help_response_pl : List Char :=
  "HELP: Available commands: init, run_app, set_param, get_status, capture_ram, exit, help".data

/-- `handle_help_command`: sends the static command list. -/
def handle_help_command (help : List Char) (s : HandlerState) :
    HandlerState × List (List Char) :=
  (s, [help])

/-- `handle_output_data_command` (PS variant only): diagnostic printout of
parameters and simulated data, then the single response `OK`. -/
def handle_output_data_command (s : HandlerState) : HandlerState × List (List Char) :=
  (s, ["OK".data])

/-- `handle_device_dna_command` (PS variant only): simulated 96-bit DNA from
the constants low `0x12345678`, mid `0x9ABCDEF0`, high `0x13579BDF`, sent as
`DEVICE_DNA: 0x<high><mid><low>` through the 512-byte response buffer. -/
def handle_device_dna_command (s : HandlerState) : HandlerState × List (List Char) :=
  (s, [("DEVICE_DNA: 0x".data ++ format_hex8 0x13579BDF ++ format_hex8 0x9ABCDEF0
        ++ format_hex8 0x12345678).take 511])

/-- The token before the first space of a line: what `handle_command` leaves
in `cmd` after writing `'\0'` over the first space found by `strchr`. -/
def first_token (line : List Char) : List Char :=
  line.takeWhile (fun c => !(c == ' '))

/-- `handle_command`, parametrised by the text of the `help` response (the
only difference between the PS and the PL variants): copy at most 255 bytes
of the command (`strncpy` into `cmd[256]`), cut at the first `'\r'`/`'\n'`
(`strcspn`), split name and argument at the first space (`strchr`), then
dispatch through the `strcmp` chain; unrecognised names answer
`ERROR: Unknown command` without touching the state. -/
def handle_command_gen (help : List Char) (s : HandlerState) (command : List Char) :
    HandlerState × List (List Char) :=
  let cmd0 := (command.take 255).takeWhile (fun c => !(c == '\r' || c == '\n'))
  let name := first_token cmd0
  let args : Option (List Char) :=
    if name.length = cmd0.length then none
    else some (cmd0.drop (name.length + 1))
  if name = "init".data then handle_init_command s
  else if name = "run_app".data then handle_run_app_command s
  else if name = "set_param".data then handle_set_param_command s args
  else if name = "get_status".data then handle_get_status_command s
  else if name = "capture_ram".data then handle_capture_ram_command s
  else if name = "exit".data then handle_exit_command s
  else if name = "help".data then handle_help_command help s
  else (s, ["ERROR: Unknown command".data])

/-- `handle_command` of the PS variant (`jtag_uart_handler.c`). -/
def handle_command (s : HandlerState) (command : List Char) :
    HandlerState × List (List Char) :=
  handle_command_gen help_response_ps s command

/-- `handle_command` of the PL variant (`jtag_uart_handler_pl.c`). -/
def handle_command_pl (s : HandlerState) (command : List Char) :
    HandlerState × List (List Char) :=
  handle_command_gen help_response_pl s command

/-- The read loop of `receive_command` after the first character has been
read: while the current character `c` is no terminator and fewer than
`maxLen - 1` characters are stored, store `c` and read the next character,
stopping at end of input. On loop exit the current character is not stored:
a terminator is consumed and dropped, and when the length bound stops the
loop the already-read character is likewise dropped. Returns the stored
command and the unconsumed input. -/
def recv_loop (maxLen : Nat) (c : Char) (input : List Char) (len : Nat)
    (acc : List Char) : List Char × List Char :=
  if c ≠ '\n' ∧ c ≠ '\r' ∧ len < maxLen - 1 then
    match input with
    | [] => (acc ++ [c], [])
    | c2 :: rest => recv_loop maxLen c2 rest (len + 1) (acc ++ [c])
  else (acc, input)

/-- `receive_command`: at end of input (`getchar` returns `EOF` at once) the
result is the empty command; otherwise the read loop runs. Returns the
command (its length is the C return value) and the unconsumed input. -/
def receive_command (input : List Char) (maxLen : Nat) : List Char × List Char :=
  match input with
  | [] => ([], [])
  | c :: rest => recv_loop maxLen c rest 0 []

/-- Modelled from the spec: the consumer loop that drains the transport,
frames commands with `receive_command` (maximum command line length 256) and
dispatches non-empty lines through `handle_command`. No caller of
`receive_command` or `handle_command` exists under src/ (`main` drives the
interactive menu instead); the spec requires that the loop runs while the
termination flag is clear and that empty framed lines are discarded, not
dispatched. The fuel argument only bounds the iteration count; one character
is consumed per iteration, so fuel equal to the input length is enough. -/
def run_stream_fuel : Nat → HandlerState → List Char → HandlerState × List (List Char)
  | 0, s, _ => (s, [])
  | fuel + 1, s, input =>
    if s.running = 0 then (s, [])
    else
      match input with
      | [] => (s, [])
      | c :: rest =>
        let r := recv_loop 256 c rest 0 []
        let d := if 0 < r.1.length then handle_command s r.1 else (s, [])
        let k := run_stream_fuel fuel d.1 r.2
        (k.1, d.2 ++ k.2)

/-- Modelled from the spec: the consumer loop applied to a finite input
stream. -/
def run_stream (s : HandlerState) (input : List Char) : HandlerState × List (List Char) :=
  run_stream_fuel input.length s input

/-- `get_char_input`: read one character (0 at end of input), then discard
input up to a newline; the discarding loop calls `getchar` twice per test,
so it checks only every other character for the newline, exactly as the C
condition `getchar() != '\n' && getchar() != EOF` does. -/
def drain_input : List Char → List Char
  | [] => []
  | c :: rest =>
    if c = '\n' then rest
    else
      match rest with
      | [] => []
      | _ :: rest2 => drain_input rest2

/-- `get_char_input`: first character of the input plus the drained rest. -/
def get_char_input : List Char → Char × List Char
  | [] => (Char.ofNat 0, [])
  | c :: rest => (c, drain_input rest)

/-- `handle_menu_selection` of the PS variant: the interactive numbered menu.
Returns the new state, the responses sent, and the unconsumed input (menu
prompts are `xil_printf` output, not responses). On a failed `scanf("%X")`
the skipped whitespace stays consumed. -/
def handle_menu_selection (choice : Char) (s : HandlerState) (input : List Char) :
    HandlerState × List (List Char) × List Char :=
  if choice = '1' then ((handle_init_command s).1, (handle_init_command s).2, input)
  else if choice = '2' then
    let g := get_char_input input
    if g.1 = '1' then
      let g2 := get_char_input g.2
      let v := if g2.1 = '1' then 0x00000001
        else if g2.1 = '2' then 0x00000002
        else if g2.1 = '3' then 0x00000003
        else s.param1
      ({ s with param1 := v }, [], g2.2)
    else if g.1 = '2' then
      match scan_pct_X g.2 with
      | some p => ({ s with param2 := p.1 }, [], p.2)
      | none => (s, [], g.2.dropWhile (fun c => c_isspace c))
    else if g.1 = '3' then
      match scan_pct_X g.2 with
      | some p => ({ s with param3 := p.1 }, [], p.2)
      | none => (s, [], g.2.dropWhile (fun c => c_isspace c))
    else (s, [], g.2)
  else if choice = '3' then
    ((handle_run_app_command s).1, (handle_run_app_command s).2, input)
  else if choice = '4' then (s, (handle_get_status_command s).2, input)
  else if choice = '5' then
    let g := get_char_input input
    let rest := if g.1 = '1' then g.2.drop 1 else g.2
    (s, (handle_capture_ram_command s).2, rest)
  else if choice = '6' then (s, (handle_output_data_command s).2, input)
  else if choice = '7' then (s, (handle_device_dna_command s).2, input)
  else if choice = '8' then (s, (handle_help_command help_response_ps s).2, input)
  else if choice = '9' then
    ((handle_exit_command s).1, (handle_exit_command s).2, input)
  else (s, [], input)

/-! ### List helpers -/

theorem takeWhile_all {p : Char → Bool} :
    ∀ {l : List Char}, (∀ c ∈ l, p c = true) → l.takeWhile p = l := by
  intro l
  induction l with
  | nil => intro _; rfl
  | cons a t ih =>
    intro h
    rw [List.takeWhile_cons_of_pos (h a (List.mem_cons_self a t)),
      ih (fun c hc => h c (List.mem_cons_of_mem a hc))]

theorem takeWhile_append_stop {p : Char → Bool} (l₁ : List Char) (a : Char)
    (l₂ : List Char) (h₁ : ∀ c ∈ l₁, p c = true) (h₂ : p a = false) :
    (l₁ ++ a :: l₂).takeWhile p = l₁ := by
  induction l₁ with
  | nil =>
    simp only [List.nil_append]
    rw [List.takeWhile_cons_of_neg (by simp [h₂])]
  | cons b t ih =>
    simp only [List.cons_append]
    rw [List.takeWhile_cons_of_pos (h₁ b (List.mem_cons_self b t)),
      ih (fun c hc => h₁ c (List.mem_cons_of_mem b hc))]

theorem takeWhile_take {p : Char → Bool} :
    ∀ (l : List Char) (n : Nat), (l.take n).takeWhile p = (l.takeWhile p).take n := by
  intro l
  induction l with
  | nil => intro n; simp
  | cons a t ih =>
    intro n
    cases n with
    | zero => simp
    | succ m =>
      rw [List.take_succ_cons]
      by_cases h : p a = true
      · rw [List.takeWhile_cons_of_pos h, List.takeWhile_cons_of_pos h,
          List.take_succ_cons, ih]
      · rw [List.takeWhile_cons_of_neg h, List.takeWhile_cons_of_neg h]
        simp

/-! ### Character class facts -/

theorem ne_of_xdigit {c d : Char} (h : c_isxdigit c = true)
    (hd : c_isxdigit d = false) : c ≠ d := by
  intro he
  rw [he, hd] at h
  exact Bool.noConfusion h

theorem xdigit_not_space {c : Char} (h : c_isxdigit c = true) :
    c_isspace c = false := by
  simp only [c_isxdigit, decide_eq_true_eq] at h
  simp only [c_isspace, decide_eq_false_iff_not]
  omega

theorem xdigit_not_term {c : Char} (h : c_isxdigit c = true) :
    (c == '\r' || c == '\n') = false := by
  have k1 : c ≠ '\r' := ne_of_xdigit h (by decide)
  have k2 : c ≠ '\n' := ne_of_xdigit h (by decide)
  simp [k1, k2]

/-! ### Hex scanning lemmas -/

theorem foldl_hex_ge :
    ∀ (l : List Char) (v : Nat), v ≤ l.foldl (fun a c => a * 16 + hex_val c) v := by
  intro l
  induction l with
  | nil => intro v; exact Nat.le_refl v
  | cons c t ih =>
    intro v
    calc v ≤ v * 16 + hex_val c := by omega
    _ ≤ _ := ih (v * 16 + hex_val c)

theorem scan_hex_digits_all :
    ∀ (l : List Char) (v : Nat), (∀ c ∈ l, c_isxdigit c = true) →
      l.foldl (fun a c => a * 16 + hex_val c) v < 2 ^ 32 →
      scan_hex_digits l v = (l.foldl (fun a c => a * 16 + hex_val c) v, []) := by
  intro l
  induction l with
  | nil => intro v _ _; rfl
  | cons c t ih =>
    intro v hall hlt
    have hc := hall c (List.mem_cons_self c t)
    have hfl : (c :: t).foldl (fun a c => a * 16 + hex_val c) v
        = t.foldl (fun a c => a * 16 + hex_val c) (v * 16 + hex_val c) := rfl
    rw [hfl] at hlt
    have hstep : (v * 16 + hex_val c) % 2 ^ 32 = v * 16 + hex_val c := by
      apply Nat.mod_eq_of_lt
      calc v * 16 + hex_val c ≤ _ := foldl_hex_ge t (v * 16 + hex_val c)
      _ < 2 ^ 32 := hlt
    rw [scan_hex_digits, if_pos hc, hstep,
      ih _ (fun x hx => hall x (List.mem_cons_of_mem c hx)) hlt, hfl]

theorem scan_pct_X_digits (hs : List Char) (h1 : hs ≠ [])
    (h2 : ∀ c ∈ hs, c_isxdigit c = true) (h4 : hex_digits_val hs < 2 ^ 32) :
    scan_pct_X hs = some (hex_digits_val hs, []) := by
  obtain ⟨c, t, rfl⟩ : ∃ c t, hs = c :: t := by
    cases hs with
    | nil => exact absurd rfl h1
    | cons c t => exact ⟨c, t, rfl⟩
  have hc := h2 c (List.mem_cons_self c t)
  have hdrop : (c :: t).dropWhile (fun x => c_isspace x) = c :: t :=
    List.dropWhile_cons_of_neg (by simp [xdigit_not_space hc])
  unfold scan_pct_X
  rw [hdrop]
  dsimp only
  rw [if_neg (ne_of_xdigit hc (by decide)), if_neg (ne_of_xdigit hc (by decide))]
  have hstrip : strip_hex_marker (c :: t) = c :: t := by
    cases t with
    | nil => rfl
    | cons c1 t1 =>
      have hc1 := h2 c1 (List.mem_cons_of_mem c (List.mem_cons_self c1 t1))
      unfold strip_hex_marker
      dsimp only
      rw [if_neg ?hn]
      case hn =>
        rintro ⟨-, hx | hx, -⟩
        · exact ne_of_xdigit hc1 (by decide) hx
        · exact ne_of_xdigit hc1 (by decide) hx
  unfold scan_unsigned_hex
  rw [hstrip]
  dsimp only
  rw [if_pos hc, scan_hex_digits_all (c :: t) 0 h2 h4]
  rfl

theorem sscanf_param_hex (nm : List Char) (hs : List Char)
    (hnm₁ : nm ≠ []) (hnm₂ : ∀ c ∈ nm, c_isspace c = false)
    (h1 : hs ≠ []) (h2 : ∀ c ∈ hs, c_isxdigit c = true)
    (h4 : hex_digits_val hs < 2 ^ 32) :
    sscanf_param (nm ++ ' ' :: '0' :: 'x' :: hs) = some (nm, hex_digits_val hs, []) := by
  obtain ⟨a, t, rfl⟩ : ∃ a t, nm = a :: t := by
    cases nm with
    | nil => exact absurd rfl hnm₁
    | cons a t => exact ⟨a, t, rfl⟩
  simp only [sscanf_param]
  have hdrop : ((a :: t) ++ ' ' :: '0' :: 'x' :: hs).dropWhile (fun x => c_isspace x)
      = (a :: t) ++ ' ' :: '0' :: 'x' :: hs := by
    rw [List.cons_append]
    exact List.dropWhile_cons_of_neg (by simp [hnm₂ a (List.mem_cons_self a t)])
  rw [hdrop, if_neg (by rw [List.cons_append]; simp)]
  have ename : ((a :: t) ++ ' ' :: '0' :: 'x' :: hs).takeWhile (fun x => !c_isspace x)
      = a :: t := by
    apply takeWhile_append_stop
    · intro c hc; simp [hnm₂ c hc]
    · decide
  rw [ename, List.drop_left,
    List.dropWhile_cons_of_pos (by decide), List.dropWhile_cons_of_neg (by decide)]
  show (scan_pct_X hs).map (fun p => ((a :: t : List Char), p.1, p.2))
      = some (a :: t, hex_digits_val hs, [])
  rw [scan_pct_X_digits hs h1 h2 h4]
  rfl

theorem dispatch_set_param (help : List Char) (s : HandlerState) (arg : List Char)
    (h₁ : ∀ c ∈ arg, (c == '\r' || c == '\n') = false) (h₂ : arg.length ≤ 245) :
    handle_command_gen help s ("set_param ".data ++ arg)
      = handle_set_param_command s (some arg) := by
  simp only [handle_command_gen, first_token]
  have etake : ("set_param ".data ++ arg).take 255 = "set_param ".data ++ arg := by
    apply List.take_of_length_le
    rw [List.length_append]
    have e : ("set_param ".data).length = 10 := rfl
    omega
  rw [etake]
  have eterm : ("set_param ".data ++ arg).takeWhile (fun c => !(c == '\r' || c == '\n'))
      = "set_param ".data ++ arg := by
    apply takeWhile_all
    intro c hc
    rcases List.mem_append.mp hc with h | h
    · have hall : ∀ c ∈ "set_param ".data, (!(c == '\r' || c == '\n')) = true := by decide
      exact hall c h
    · simp [h₁ c h]
  rw [eterm]
  have ename : ("set_param ".data ++ arg).takeWhile (fun c => !(c == ' '))
      = "set_param".data := by
    have e0 : "set_param ".data ++ arg = "set_param".data ++ ' ' :: arg := rfl
    rw [e0]
    exact takeWhile_append_stop _ ' ' arg (by decide) (by decide)
  rw [ename]
  have hne : ¬(("set_param".data).length = ("set_param ".data ++ arg).length) := by
    rw [List.length_append]
    have e1 : ("set_param".data).length = 9 := rfl
    have e2 : ("set_param ".data).length = 10 := rfl
    omega
  rw [if_neg hne]
  have edrop : ("set_param ".data ++ arg).drop (("set_param".data).length + 1) = arg := by
    have e : ("set_param".data).length + 1 = ("set_param ".data).length := rfl
    rw [e, List.drop_left]
  rw [edrop]
  rfl

theorem set_param1_ok (help : List Char) (s : HandlerState) (hs : List Char)
    (h1 : hs ≠ []) (h2 : ∀ c ∈ hs, c_isxdigit c = true)
    (h3 : hs.length ≤ 236) (h4 : hex_digits_val hs < 2 ^ 32) :
    handle_command_gen help s ("set_param param1 0x".data ++ hs)
      = ({ s with param1 := hex_digits_val hs }, ["PARAM_SET_OK".data]) := by
  have e : "set_param param1 0x".data ++ hs
      = "set_param ".data ++ ("param1 0x".data ++ hs) := rfl
  rw [e, dispatch_set_param help s ("param1 0x".data ++ hs)
    (by
      intro c hc
      rcases List.mem_append.mp hc with h | h
      · have hall : ∀ x ∈ "param1 0x".data, (x == '\r' || x == '\n') = false := by decide
        exact hall c h
      · exact xdigit_not_term (h2 c h))
    (by
      rw [List.length_append]
      have el : ("param1 0x".data).length = 9 := rfl
      omega)]
  have e2 : "param1 0x".data ++ hs = "param1".data ++ ' ' :: '0' :: 'x' :: hs := rfl
  simp only [handle_set_param_command]
  rw [e2, sscanf_param_hex "param1".data hs (by decide) (by decide) h1 h2 h4]
  rfl

theorem set_param2_ok (help : List Char) (s : HandlerState) (hs : List Char)
    (h1 : hs ≠ []) (h2 : ∀ c ∈ hs, c_isxdigit c = true)
    (h3 : hs.length ≤ 236) (h4 : hex_digits_val hs < 2 ^ 32) :
    handle_command_gen help s ("set_param param2 0x".data ++ hs)
      = ({ s with param2 := hex_digits_val hs }, ["PARAM_SET_OK".data]) := by
  have e : "set_param param2 0x".data ++ hs
      = "set_param ".data ++ ("param2 0x".data ++ hs) := rfl
  rw [e, dispatch_set_param help s ("param2 0x".data ++ hs)
    (by
      intro c hc
      rcases List.mem_append.mp hc with h | h
      · have hall : ∀ x ∈ "param2 0x".data, (x == '\r' || x == '\n') = false := by decide
        exact hall c h
      · exact xdigit_not_term (h2 c h))
    (by
      rw [List.length_append]
      have el : ("param2 0x".data).length = 9 := rfl
      omega)]
  have e2 : "param2 0x".data ++ hs = "param2".data ++ ' ' :: '0' :: 'x' :: hs := rfl
  simp only [handle_set_param_command]
  rw [e2, sscanf_param_hex "param2".data hs (by decide) (by decide) h1 h2 h4]
  rfl

theorem set_param3_ok (help : List Char) (s : HandlerState) (hs : List Char)
    (h1 : hs ≠ []) (h2 : ∀ c ∈ hs, c_isxdigit c = true)
    (h3 : hs.length ≤ 236) (h4 : hex_digits_val hs < 2 ^ 32) :
    handle_command_gen help s ("set_param param3 0x".data ++ hs)
      = ({ s with param3 := hex_digits_val hs }, ["PARAM_SET_OK".data]) := by
  have e : "set_param param3 0x".data ++ hs
      = "set_param ".data ++ ("param3 0x".data ++ hs) := rfl
  rw [e, dispatch_set_param help s ("param3 0x".data ++ hs)
    (by
      intro c hc
      rcases List.mem_append.mp hc with h | h
      · have hall : ∀ x ∈ "param3 0x".data, (x == '\r' || x == '\n') = false := by decide
        exact hall c h
      · exact xdigit_not_term (h2 c h))
    (by
      rw [List.length_append]
      have el : ("param3 0x".data).length = 9 := rfl
      omega)]
  have e2 : "param3 0x".data ++ hs = "param3".data ++ ' ' :: '0' :: 'x' :: hs := rfl
  simp only [handle_set_param_command]
  rw [e2, sscanf_param_hex "param3".data hs (by decide) (by decide) h1 h2 h4]
  rfl

/-! ### Claim theorems -/

set_option maxRecDepth 100000 in
/-- C1, counterexample to the claim as stated: the hex literal
`0x000...01` (250 zeros then `1`) parses as the unsigned 32-bit value 1, yet
dispatching `set_param param1 0x<that literal>` sets `param1` to 0, because
`handle_command` truncates the command to the 255 bytes that fit its
`cmd[256]` buffer before parsing, and still answers `PARAM_SET_OK`. -/
theorem C1_cex :
    sscanf_param ("param1 0x".data ++ (List.replicate 250 '0' ++ ['1']))
        = some ("param1".data, 1, [])
    ∧ handle_command initial_state
        ("set_param param1 0x".data ++ (List.replicate 250 '0' ++ ['1']))
        = ({ initial_state with param1 := 0 }, ["PARAM_SET_OK".data]) :=
  ⟨by decide, by decide⟩

/-- C1 (amended): for every name in `{param1, param2, param3}` and every hex
literal of at most 236 digits that parses as an unsigned 32-bit integer (so
that the whole command fits the 255-byte command buffer), dispatching
`set_param <name> 0x<hex>` — in the PS variant and in the PL variant — sets
exactly the named field of the parameter set to the parsed value, leaves the
other two fields and the device status unchanged, and emits the single
response `PARAM_SET_OK`. -/
theorem C1_theorem (s : HandlerState) (hs : List Char)
    (h1 : hs ≠ []) (h2 : ∀ c ∈ hs, c_isxdigit c = true)
    (h3 : hs.length ≤ 236) (h4 : hex_digits_val hs < 2 ^ 32) :
    handle_command s ("set_param param1 0x".data ++ hs)
        = ({ s with param1 := hex_digits_val hs }, ["PARAM_SET_OK".data])
    ∧ handle_command s ("set_param param2 0x".data ++ hs)
        = ({ s with param2 := hex_digits_val hs }, ["PARAM_SET_OK".data])
    ∧ handle_command s ("set_param param3 0x".data ++ hs)
        = ({ s with param3 := hex_digits_val hs }, ["PARAM_SET_OK".data])
    ∧ handle_command_pl s ("set_param param1 0x".data ++ hs)
        = ({ s with param1 := hex_digits_val hs }, ["PARAM_SET_OK".data])
    ∧ handle_command_pl s ("set_param param2 0x".data ++ hs)
        = ({ s with param2 := hex_digits_val hs }, ["PARAM_SET_OK".data])
    ∧ handle_command_pl s ("set_param param3 0x".data ++ hs)
        = ({ s with param3 := hex_digits_val hs }, ["PARAM_SET_OK".data]) :=
  ⟨set_param1_ok help_response_ps s hs h1 h2 h3 h4,
   set_param2_ok help_response_ps s hs h1 h2 h3 h4,
   set_param3_ok help_response_ps s hs h1 h2 h3 h4,
   set_param1_ok help_response_pl s hs h1 h2 h3 h4,
   set_param2_ok help_response_pl s hs h1 h2 h3 h4,
   set_param3_ok help_response_pl s hs h1 h2 h3 h4⟩

/-- C1 witness: `set_param param1 0x2A` from the initial state sets `param1`
to 42 and answers `PARAM_SET_OK`. -/
theorem C1_theorem_witness :
    handle_command initial_state ("set_param param1 0x".data ++ ['2', 'A'])
      = ({ initial_state with param1 := 42 }, ["PARAM_SET_OK".data]) :=
  (C1_theorem initial_state ['2', 'A'] (by decide) (by decide) (by decide)
    (by decide)).1

/-- C2: from every prior state, dispatching `init` resets `param1` to
`0x00000001`, `param2` to `0x43C00000` and `param3` to `0x00001000`, sets the
device status to `INITIALIZED`, and emits the single response `INIT_OK`. -/
theorem C2_theorem (s : HandlerState) :
    handle_command s "init".data
      = ({ s with
            param1 := 0x00000001
            param2 := 0x43C00000
            param3 := 0x00001000
            app_status := "INITIALIZED".data }, ["INIT_OK".data]) := rfl

/-- C8: dispatching `exit` sets the device status to `EXITING`, clears the
`running` flag the consumer loop tests (the termination flag becomes true),
emits the single response `EXIT_OK`, and leaves all three parameter fields at
their prior values. -/
theorem C8_theorem (s : HandlerState) :
    handle_command s "exit".data
        = ({ s with app_status := "EXITING".data, running := 0 }, ["EXIT_OK".data])
    ∧ (handle_command s "exit".data).1.param1 = s.param1
    ∧ (handle_command s "exit".data).1.param2 = s.param2
    ∧ (handle_command s "exit".data).1.param3 = s.param3
    ∧ (handle_command s "exit".data).1.running = 0 :=
  ⟨rfl, rfl, rfl, rfl, rfl⟩

/-- C3: for every command line free of terminator bytes (a framed command
line never contains `'\r'` or `'\n'`) whose first token — the part before
the first space — is none of the seven table entries, dispatch emits exactly
the response `ERROR: Unknown command` and leaves the whole state (parameter
set and device status) unchanged. -/
theorem C3_theorem (s : HandlerState) (line : List Char)
    (hline : ∀ c ∈ line, c ≠ '\r' ∧ c ≠ '\n')
    (htok : first_token line ∉ [("init".data), ("run_app".data), ("set_param".data),
      ("get_status".data), ("capture_ram".data), ("exit".data), ("help".data)]) :
    handle_command s line = (s, ["ERROR: Unknown command".data]) := by
  simp only [handle_command, handle_command_gen]
  have eterm : (line.take 255).takeWhile (fun c => !(c == '\r' || c == '\n'))
      = line.take 255 := by
    apply takeWhile_all
    intro c hc
    have hm := hline c (List.take_subset 255 line hc)
    simp [hm.1, hm.2]
  rw [eterm]
  have etok : first_token (line.take 255) = (first_token line).take 255 :=
    takeWhile_take line 255
  rw [etok]
  have key : ∀ k : List Char, k.length < 255 → (first_token line).take 255 = k →
      first_token line = k := by
    intro k hk he
    by_cases hl : (first_token line).length ≤ 255
    · rwa [List.take_of_length_le hl] at he
    · exfalso
      have hlen : ((first_token line).take 255).length = 255 := by
        rw [List.length_take]; omega
      rw [he] at hlen
      omega
  have mem_of : ∀ k : List Char,
      k ∈ [("init".data), ("run_app".data), ("set_param".data), ("get_status".data),
        ("capture_ram".data), ("exit".data), ("help".data)] →
      k.length < 255 → ¬((first_token line).take 255 = k) := by
    intro k hk hlen he
    exact htok ((key k hlen he) ▸ hk)
  rw [if_neg (mem_of "init".data (by decide) (by decide)),
    if_neg (mem_of "run_app".data (by decide) (by decide)),
    if_neg (mem_of "set_param".data (by decide) (by decide)),
    if_neg (mem_of "get_status".data (by decide) (by decide)),
    if_neg (mem_of "capture_ram".data (by decide) (by decide)),
    if_neg (mem_of "exit".data (by decide) (by decide)),
    if_neg (mem_of "help".data (by decide) (by decide))]

/-- C3 witness: the unknown command `bogus` from the initial state. -/
theorem C3_theorem_witness :
    handle_command initial_state "bogus".data
      = (initial_state, ["ERROR: Unknown command".data]) :=
  C3_theorem initial_state "bogus".data (by decide) (by decide)

/-- C4, counterexample to the claim as stated: the argument `param1 0x 5`
does not match the shape `<param-name> 0x<hex-digits>` (there is a space
between `0x` and the digits), yet dispatching `set_param param1 0x 5` does
not produce `ERROR: Invalid parameter format` and does not leave the state
unchanged: the `%X` conversion of `sscanf` skips the whitespace, so the
command sets `param1` to 5 and answers `PARAM_SET_OK`. -/
theorem C4_cex :
    handle_command initial_state "set_param param1 0x 5".data
      = ({ initial_state with param1 := 5 }, ["PARAM_SET_OK".data]) := by decide

/-- C4 (amended): for arguments whose leading whitespace-delimited name
token is at most 15 bytes (the `%s` conversion writes the token into the
16-byte `param_name` buffer, so longer tokens are undefined behaviour in the
C — see C9 — and are outside every class of this claim), dispatching
`set_param` with an invalid argument is atomic and classified by the
acceptance of `sscanf("%s 0x%X")`: with no argument at all (no space after
`set_param`) it emits `ERROR: Missing parameter arguments`; with an argument
that the scan accepts (the name token, then whitespace, the literal `0x`,
and a `%X` hex value that may itself be preceded by whitespace, a sign and a
`0x` marker) whose name is outside `{param1, param2, param3}` it emits
`ERROR: Unknown parameter name`; with an argument the scan rejects it emits
`ERROR: Invalid parameter format`; and in every such case the parameter set
and the device status are unchanged. -/
theorem C4_theorem (s : HandlerState) (arg : List Char)
    (h₁ : ∀ c ∈ arg, c ≠ '\r' ∧ c ≠ '\n') (h₂ : arg.length ≤ 245) :
    handle_command s "set_param".data = (s, ["ERROR: Missing parameter arguments".data])
    ∧ (∀ nm v rest, sscanf_param arg = some (nm, v, rest) → nm.length < 16 →
        nm ∉ [("param1".data), ("param2".data), ("param3".data)] →
        handle_command s ("set_param ".data ++ arg)
          = (s, ["ERROR: Unknown parameter name".data]))
    ∧ ((scan_name_token arg).length < 16 → sscanf_param arg = none →
        handle_command s ("set_param ".data ++ arg)
          = (s, ["ERROR: Invalid parameter format".data])) := by
  have hroute : handle_command s ("set_param ".data ++ arg)
      = handle_set_param_command s (some arg) := by
    apply dispatch_set_param
    · intro c hc
      have hm := h₁ c hc
      simp [hm.1, hm.2]
    · exact h₂
  refine ⟨rfl, ?_, ?_⟩
  · intro nm v rest hscan hlen hnm
    rw [hroute]
    simp only [handle_set_param_command]
    rw [hscan]
    have k1 : ¬(nm = "param1".data) := by
      intro h; exact hnm (by rw [h]; decide)
    have k2 : ¬(nm = "param2".data) := by
      intro h; exact hnm (by rw [h]; decide)
    have k3 : ¬(nm = "param3".data) := by
      intro h; exact hnm (by rw [h]; decide)
    dsimp only
    rw [if_neg k1, if_neg k2, if_neg k3]
  · intro htok hscan
    rw [hroute]
    simp only [handle_set_param_command]
    rw [hscan]

/-- C4 witness: end-to-end scenario C, `set_param param9 0x1` answers
`ERROR: Unknown parameter name` and changes nothing. -/
theorem C4_theorem_witness :
    handle_command initial_state "set_param param9 0x1".data
      = (initial_state, ["ERROR: Unknown parameter name".data]) :=
  (C4_theorem initial_state "param9 0x1".data (by decide) (by decide)).2.1
    "param9".data 1 [] (by decide) (by decide) (by decide)

/-- C5: a line consisting only of a terminator produces no command:
`receive_command` answers length 0 for it (consuming exactly the
terminator), and the consumer loop discards it, so no handler runs and no
response is emitted for it; this holds for each of consecutive terminators
in turn. -/
theorem C5_theorem (s : HandlerState) (t : Char) (rest : List Char)
    (ht : t = '\r' ∨ t = '\n') (hr : s.running ≠ 0) :
    receive_command (t :: rest) 256 = ([], rest)
    ∧ run_stream s (t :: rest) = run_stream s rest := by
  have hrecv : ∀ u : List Char, recv_loop 256 t u 0 [] = ([], u) := by
    intro u
    rw [recv_loop.eq_def]
    rcases ht with h | h <;> subst h <;> simp
  constructor
  · show recv_loop 256 t rest 0 [] = ([], rest)
    exact hrecv rest
  · show run_stream_fuel (rest.length + 1) s (t :: rest)
        = run_stream_fuel rest.length s rest
    simp only [run_stream_fuel]
    rw [if_neg hr]
    simp only [hrecv rest]
    simp

/-- C5 witness: a lone `'\r'` before `init` frames an empty command that is
discarded, and the loop continues on the rest of the stream. -/
theorem C5_theorem_witness :
    receive_command ('\r' :: "init\n".data) 256 = ([], "init\n".data)
    ∧ run_stream initial_state ('\r' :: "init\n".data)
        = run_stream initial_state "init\n".data :=
  C5_theorem initial_state '\r' "init\n".data (Or.inl rfl) (by decide)

/-- The read loop of `receive_command` on an over-long line: with `len`
characters already stored and more than `maxLen - 1 - len` characters before
the terminator, exactly the next `maxLen - 1 - len` characters are stored,
the single character after them is read and dropped, and everything beyond
it is left for the next call. -/
theorem recv_loop_trunc (maxLen : Nat) :
    ∀ (l : List Char) (c : Char) (tail : List Char) (len : Nat) (acc : List Char),
      (c ≠ '\n' ∧ c ≠ '\r') → (∀ x ∈ l, x ≠ '\n' ∧ x ≠ '\r') →
      1 ≤ maxLen → len ≤ maxLen - 1 → maxLen - 1 ≤ len + l.length →
      recv_loop maxLen c (l ++ tail) len acc
        = (acc ++ (c :: l).take (maxLen - 1 - len), (c :: l).drop (maxLen - len) ++ tail) := by
  intro l
  induction l with
  | nil =>
    intro c tail len acc hc _ hm hle hge
    simp only [List.length_nil, Nat.add_zero] at hge
    rw [recv_loop.eq_def, if_neg (by omega)]
    have h1 : maxLen - 1 - len = 0 := by omega
    have h2 : maxLen - len = 1 := by omega
    rw [h1, h2]
    simp
  | cons x l ih =>
    intro c tail len acc hc hl hm hle hge
    by_cases hlt : len < maxLen - 1
    · rw [recv_loop.eq_def, if_pos ⟨hc.1, hc.2, hlt⟩, List.cons_append]
      show recv_loop maxLen x (l ++ tail) (len + 1) (acc ++ [c]) = _
      rw [ih x tail (len + 1) (acc ++ [c]) (hl x (List.mem_cons_self x l))
        (fun y hy => hl y (List.mem_cons_of_mem x hy)) hm (by omega)
        (by simp only [List.length_cons] at hge; omega)]
      have e1 : maxLen - 1 - len = (maxLen - 1 - (len + 1)) + 1 := by omega
      have e2 : maxLen - len = (maxLen - (len + 1)) + 1 := by omega
      rw [e1, e2, List.take_succ_cons, List.drop_succ_cons]
      simp
    · rw [recv_loop.eq_def, if_neg (by omega)]
      have h1 : maxLen - 1 - len = 0 := by omega
      have h2 : maxLen - len = 1 := by omega
      rw [h1, h2]
      simp

set_option maxRecDepth 100000 in
/-- C6, counterexample to the claim as stated: on a 257-byte line
(255 `a`s then `b` then `c`) the framer does not keep 256 bytes and it does
lose a byte: it stores only 255 bytes (`max_len - 1`, the `cmd` buffer keeps
one byte for the terminating NUL), the 256th byte `b` is read but neither
stored nor left in the stream, and only `c` onward remains for the next
line. -/
theorem C6_cex :
    receive_command (List.replicate 255 'a' ++ ['b', 'c', '\n', 'x']) 256
        = (List.replicate 255 'a', ['c', '\n', 'x'])
    ∧ 'b' ∈ List.replicate 255 'a' ++ ['b', 'c', '\n', 'x']
    ∧ 'b' ∉ (receive_command (List.replicate 255 'a' ++ ['b', 'c', '\n', 'x']) 256).1
    ∧ 'b' ∉ (receive_command (List.replicate 255 'a' ++ ['b', 'c', '\n', 'x']) 256).2 :=
  ⟨by decide, by decide, by decide, by decide⟩

/-- C6 (amended): for every input line longer than 255 bytes, framing stores
exactly the first 255 bytes (`max_len - 1`), discards the one byte at the
truncation point, and leaves every byte from position 256 onward — together
with the line terminator — in the stream, to become the prefix of the next
framed command. -/
theorem C6_theorem (line : List Char) (t : Char) (rest : List Char)
    (hclean : ∀ c ∈ line, c ≠ '\n' ∧ c ≠ '\r') (hlong : 256 ≤ line.length)
    (ht : t = '\n' ∨ t = '\r') :
    receive_command (line ++ t :: rest) 256
      = (line.take 255, line.drop 256 ++ t :: rest) := by
  cases line with
  | nil => simp at hlong
  | cons c l =>
    show recv_loop 256 c (l ++ t :: rest) 0 [] = _
    rw [recv_loop_trunc 256 l c (t :: rest) 0 [] (hclean c (List.mem_cons_self c l))
      (fun y hy => hclean y (List.mem_cons_of_mem c hy)) (by omega) (by omega)
      (by simp only [List.length_cons] at hlong; omega)]
    simp

set_option maxRecDepth 100000 in
/-- C6 witness: a 300-byte line of `a`s followed by a newline and `z`. -/
theorem C6_theorem_witness :
    receive_command (List.replicate 300 'a' ++ '\n' :: ['z']) 256
      = ((List.replicate 300 'a').take 255,
         (List.replicate 300 'a').drop 256 ++ '\n' :: ['z']) :=
  C6_theorem (List.replicate 300 'a') '\n' ['z'] (by decide) (by decide) (Or.inl rfl)

theorem hex_digit_char_val (m : Nat) (hm : m < 16) : hex_val (hex_digit_char m) = m := by
  interval_cases m <;> rfl

theorem hex8_roundtrip (v : Nat) (hv : v < 2 ^ 32) :
    hex_digits_val (format_hex8 v) = v := by
  have e : format_hex8 v
      = [hex_digit_char (v / 268435456 % 16), hex_digit_char (v / 16777216 % 16),
         hex_digit_char (v / 1048576 % 16), hex_digit_char (v / 65536 % 16),
         hex_digit_char (v / 4096 % 16), hex_digit_char (v / 256 % 16),
         hex_digit_char (v / 16 % 16), hex_digit_char (v / 1 % 16)] := rfl
  rw [hex_digits_val, e]
  simp only [List.foldl_cons, List.foldl_nil]
  rw [hex_digit_char_val (v / 268435456 % 16) (Nat.mod_lt _ (by omega)),
    hex_digit_char_val (v / 16777216 % 16) (Nat.mod_lt _ (by omega)),
    hex_digit_char_val (v / 1048576 % 16) (Nat.mod_lt _ (by omega)),
    hex_digit_char_val (v / 65536 % 16) (Nat.mod_lt _ (by omega)),
    hex_digit_char_val (v / 4096 % 16) (Nat.mod_lt _ (by omega)),
    hex_digit_char_val (v / 256 % 16) (Nat.mod_lt _ (by omega)),
    hex_digit_char_val (v / 16 % 16) (Nat.mod_lt _ (by omega)),
    hex_digit_char_val (v / 1 % 16) (Nat.mod_lt _ (by omega))]
  omega

theorem status_line_len (s : HandlerState) (h : s.app_status.length ≤ 63) :
    (status_line s).length ≤ 511 := by
  have e1 : ("STATUS: ".data).length = 8 := rfl
  have e2 : (", P1: 0x".data).length = 8 := rfl
  have e3 : (", P2: 0x".data).length = 8 := rfl
  have e4 : (", P3: 0x".data).length = 8 := rfl
  have e5 : ∀ v : Nat, (format_hex8 v).length = 8 := by
    intro v; simp [format_hex8]
  simp only [status_line, List.length_append, e1, e2, e3, e4, e5]
  omega

/-- C7: `get_status` mutates nothing and emits the single response
`STATUS: <status>, P1: 0x<8-hex>, P2: 0x<8-hex>, P3: 0x<8-hex>` built from
the current state (the `app_status` array holds at most 63 characters, so
the `snprintf` bound never truncates); the rendered 8-digit hex fields
denote exactly the current parameter values (parsing them back yields the
value); and after `init` from the initial state the response is exactly
`STATUS: INITIALIZED, P1: 0x00000001, P2: 0x43C00000, P3: 0x00001000`. -/
theorem C7_theorem (s : HandlerState)
    (h1 : s.param1 < 2 ^ 32) (h2 : s.param2 < 2 ^ 32) (h3 : s.param3 < 2 ^ 32)
    (h4 : s.app_status.length ≤ 63) :
    handle_command s "get_status".data = (s, [status_line s])
    ∧ hex_digits_val (format_hex8 s.param1) = s.param1
    ∧ hex_digits_val (format_hex8 s.param2) = s.param2
    ∧ hex_digits_val (format_hex8 s.param3) = s.param3
    ∧ (handle_command (handle_command initial_state "init".data).1 "get_status".data).2
        = ["STATUS: INITIALIZED, P1: 0x00000001, P2: 0x43C00000, P3: 0x00001000".data] := by
  refine ⟨?_, hex8_roundtrip _ h1, hex8_roundtrip _ h2, hex8_roundtrip _ h3, by decide⟩
  show (s, [(status_line s).take 511]) = (s, [status_line s])
  rw [List.take_of_length_le (status_line_len s h4)]

/-- C7 witness: `get_status` from the initial state. -/
theorem C7_theorem_witness :
    handle_command initial_state "get_status".data
      = (initial_state, [status_line initial_state]) :=
  (C7_theorem initial_state (by decide) (by decide) (by decide) (by decide)).1

theorem set_param_one (s : HandlerState) (a : Option (List Char)) :
    (handle_set_param_command s a).2.length = 1 := by
  cases a with
  | none => rfl
  | some arg =>
    simp only [handle_set_param_command]
    rcases hsc : sscanf_param arg with - | ⟨nm, v, rest⟩
    · rfl
    · dsimp only
      repeat' split
      all_goals rfl

/-- C9: in the memory-idealised embedding, every dispatched command line —
including every malformed `set_param` argument — completes and emits exactly
one response. (The C code itself breaks this for `set_param` arguments whose
name token is 16 bytes or longer: `sscanf`'s unbounded `%s` overflows the
16-byte `param_name` stack buffer, undefined behaviour that can escalate
past the dispatcher; see the C9 entry of the results.) -/
theorem C9_model_theorem (s : HandlerState) (command : List Char) :
    (handle_command s command).2.length = 1 := by
  simp only [handle_command, handle_command_gen]
  repeat' split
  all_goals first
  | rfl
  | exact set_param_one s _

/-- C10: in the PS variant, the dispatcher answers `ERROR: Unknown command`
for both `output_data` and `device_dna` (leaving the state unchanged), even
though its own `help` response lists both names as available commands; the
two operations are reachable only through menu choices 6 and 7 of the
interactive numbered menu. -/
theorem C10_theorem (s : HandlerState) (input : List Char) :
    handle_command s "output_data".data = (s, ["ERROR: Unknown command".data])
    ∧ handle_command s "device_dna".data = (s, ["ERROR: Unknown command".data])
    ∧ (∃ u v, help_response_ps = u ++ "output_data".data ++ v)
    ∧ (∃ u v, help_response_ps = u ++ "device_dna".data ++ v)
    ∧ handle_menu_selection '6' s input = (s, ["OK".data], input)
    ∧ handle_menu_selection '7' s input
        = (s, ["DEVICE_DNA: 0x13579BDF9ABCDEF012345678".data], input) :=
  ⟨rfl, rfl,
   ⟨"HELP: Available commands: init, run_app, set_param, get_status, capture_ram, ".data,
    ", device_dna, exit, help".data, rfl⟩,
   ⟨"HELP: Available commands: init, run_app, set_param, get_status, capture_ram, output_data, ".data,
    ", exit, help".data, rfl⟩,
   rfl, rfl⟩
